import Mathlib

/-!
Shallow embedding of `src/script.py` (Uniqlo sale checker), with theorems
settling the specification claims about it.

Modelling conventions:
* A rendered product page, as the script observes it through the Selenium
  driver, is a `Page`: the outcome of navigation (`driver.get`), of the
  title wait-and-read (`wait.until` + `.text`), and of the price query
  (`driver.find_elements` + each element's `.text`).  A step that raises
  is an `Except.error ()`; the caught exception's payload is only printed,
  so it is modelled as `Unit`.
* Python's string truthiness for `.strip()`-ed texts is modelled with
  `strip`, a direct rendering of `str.strip` for the ASCII whitespace
  characters; `re.search(r'(E\d{6}-\d{3})', url)` is modelled by
  `searchProductId`, a leftmost matcher for the fixed-shape pattern with
  `\d` read as the ASCII digits.
* `main`'s observable interaction with the notifier is the list of message
  strings passed to `send_telegram_notification`; printing, sleeping and
  driver lifecycle are not observable in any claim and are not modelled.
-/

namespace UniqloSale

/-- Python `str.strip()` on the whitespace characters `Char.isWhitespace`
models: drop whitespace from both ends (script.py lines 112-113, 120). -/
def strip (s : String) : String :=
  String.mk (((s.data.dropWhile Char.isWhitespace).reverse.dropWhile
    Char.isWhitespace).reverse)

/-- The `product_details` dict built by
`check_specific_item_price_selenium` (script.py lines 89-95). -/
structure ProductDetails where
  name : String
  current_price : String
  is_on_sale : Bool
  original_price : Option String
  url : String
deriving Repr, DecidableEq

/-- The initial placeholder dict (script.py lines 89-95). -/
def initialDetails (product_url : String) : ProductDetails :=
  { name := "Name not found"
    current_price := "Price not found"
    is_on_sale := false
    original_price := none
    url := product_url }

/-- One rendered page as the extractor observes it: the outcome of
`driver.get` (line 97), of the title wait and `.text` read (lines 101-103),
and of `driver.find_elements` together with each returned element's `.text`
(lines 107-113, 120).  `Except.error ()` at a step means that step raises. -/
structure Page where
  nav : Except Unit Unit
  title : Except Unit String
  priceElements : Except Unit (List (Except Unit String))

/-- Embedding of `check_specific_item_price_selenium` (script.py
lines 88-125).  Each `Except.error` arm is the `except Exception` handler
at line 123 returning the dict as filled in so far; the price branches are
lines 111-120 (`len >= 2`, `len == 1`, otherwise nothing). -/
def check_specific_item_price_selenium (product_url : String) (page : Page) :
    ProductDetails :=
  match page.nav with
  | .error _ => initialDetails product_url
  | .ok _ =>
    match page.title with
    | .error _ => initialDetails product_url
    | .ok t =>
      match page.priceElements with
      | .error _ => { initialDetails product_url with name := t }
      | .ok priceTexts =>
        match priceTexts with
        | e0 :: e1 :: _ =>
          match e0 with
          | .error _ => { initialDetails product_url with name := t }
          | .ok t0 =>
            match e1 with
            | .error _ => { initialDetails product_url with name := t }
            | .ok t1 =>
              if strip t0 ≠ "" ∧ strip t1 ≠ "" then
                { name := t
                  current_price := strip t1
                  is_on_sale := true
                  original_price := some (strip t0)
                  url := product_url }
              else { initialDetails product_url with name := t }
        | [e0] =>
          match e0 with
          | .error _ => { initialDetails product_url with name := t }
          | .ok t0 =>
            { initialDetails product_url with
                name := t
                current_price := strip t0 }
        | [] => { initialDetails product_url with name := t }

/-- Take exactly `n` characters all satisfying `p`, returning them and the
remainder; `none` when fewer than `n` such characters lead the list.  This
is the fixed-width `\d{n}` step of the regex. -/
def takeCount : Nat → (Char → Bool) → List Char → Option (List Char × List Char)
  | 0, _, l => some ([], l)
  | _ + 1, _, [] => none
  | n + 1, p, c :: l =>
    if p c then
      match takeCount n p l with
      | some (a, b) => some (c :: a, b)
      | none => none
    else none

/-- Match the pattern `E\d{6}-\d{3}` at the head of the character list
(`\d` as ASCII digits), returning the matched characters. -/
def matchProductIdAt (cs : List Char) : Option (List Char) :=
  match cs with
  | [] => none
  | c :: rest =>
    if c = 'E' then
      match takeCount 6 Char.isDigit rest with
      | none => none
      | some (d6, r1) =>
        match r1 with
        | '-' :: r2 =>
          match takeCount 3 Char.isDigit r2 with
          | none => none
          | some (d3, _) => some ('E' :: (d6 ++ '-' :: d3))
        | _ => none
    else none

/-- Leftmost search for the pattern, as `re.search` does (script.py
line 60): try every start position left to right. -/
def searchProductId : List Char → Option (List Char)
  | [] => none
  | c :: rest =>
    match matchProductIdAt (c :: rest) with
    | some m => some m
    | none => searchProductId rest

/-- Embedding of `convert_to_app_link` (script.py lines 58-64). -/
def convert_to_app_link (web_url : String) : String :=
  match searchProductId web_url.data with
  | none => web_url
  | some pid => "https://s.uniqlo.com/id/en/product/" ++ String.mk pid

/-- The identifier shape of the regex `E\d{6}-\d{3}`: an uppercase `E`,
six ASCII digits, a hyphen, three ASCII digits. -/
def idShape (pid : List Char) : Prop :=
  ∃ d6 d3, pid = 'E' :: (d6 ++ '-' :: d3) ∧ d6.length = 6 ∧ d3.length = 3 ∧
    (∀ c ∈ d6, Char.isDigit c) ∧ (∀ c ∈ d3, Char.isDigit c)

/-- The input string contains a substring of the identifier shape. -/
def hasIdShape (s : String) : Prop :=
  ∃ pre pid post, s.data = pre ++ (pid ++ post) ∧ idShape pid

/-- Configuration constant `TELEGRAM_BOT_TOKEN` (script.py line 40). -/
def TELEGRAM_BOT_TOKEN : String := "YOUR_BOT_TOKEN_HERE"

/-- Configuration constant `TELEGRAM_CHAT_ID` (script.py line 42). -/
def TELEGRAM_CHAT_ID : String := "YOUR_CHAT_ID_HERE"

/-- Configuration constant `PRODUCT_URLS` (script.py lines 47-52). -/
def PRODUCT_URLS : List String :=
  [ "https://www.uniqlo.com/id/id/products/E479169-000?colorCode=COL09&sizeCode=SMA007"
  , "https://www.uniqlo.com/id/id/products/E474437-000?colorCode=COL00&sizeCode=SMA007"
  , "https://www.uniqlo.com/id/id/products/E478913-000?colorCode=COL00&sizeCode=SMA006"
  , "https://www.uniqlo.com/id/id/products/E474432-000?colorCode=COL09&sizeCode=SMA007" ]

/-- The JSON payload of the `requests.post` call (script.py lines 74-79). -/
structure TelegramPayload where
  chat_id : String
  text : String
  parse_mode : String
  disable_web_page_preview : Bool
deriving Repr, DecidableEq

/-- Observable outcome of one `send_telegram_notification` call:
whether the placeholder-credentials diagnostic was printed, which HTTP
POSTs were issued, and whether the delivery-failure diagnostic was
printed.  The function always returns (every exception of the POST is
caught at script.py line 84). -/
structure SendOutcome where
  configError : Bool
  httpRequests : List TelegramPayload
  sendError : Bool
deriving Repr, DecidableEq

/-- Embedding of `send_telegram_notification` (script.py lines 67-85).
`postResult` is the outcome of `requests.post`: `.error ()` for a raised
transport error, `.ok status` for a response with that HTTP status code
(`raise_for_status` raises for status `>= 400`, caught at line 84). -/
def send_telegram_notification (token chat_id message : String)
    (postResult : Except Unit Nat) : SendOutcome :=
  if token = "YOUR_BOT_TOKEN_HERE" ∨ chat_id = "YOUR_CHAT_ID_HERE" then
    { configError := true, httpRequests := [], sendError := false }
  else
    let payload : TelegramPayload :=
      { chat_id := chat_id
        text := message
        parse_mode := "Markdown"
        disable_web_page_preview := true }
    match postResult with
    | .error _ => { configError := false, httpRequests := [payload], sendError := true }
    | .ok status =>
      if 400 ≤ status then
        { configError := false, httpRequests := [payload], sendError := true }
      else
        { configError := false, httpRequests := [payload], sendError := false }

/-- Python interpolation of the `original_price` value into the f-string
at script.py line 164 (`str(None)` prints `None`; sale items always carry
`some`). -/
def pyStrOpt : Option String → String
  | some s => s
  | none => "None"

/-- Python `sep.join(parts)`: empty for `[]`, otherwise the parts
interleaved with `sep` (script.py line 169 uses `"\n".join`). -/
def pyJoin (sep : String) : List String → String
  | [] => ""
  | [x] => x
  | x :: y :: rest => x ++ sep ++ pyJoin sep (y :: rest)

/-- The `detail_line` f-string for one sale item (script.py lines 162-166). -/
def detail_line (item : ProductDetails) : String :=
  "\n*" ++ item.name ++ "*\n" ++
  "Now *" ++ item.current_price ++ "* (was ~" ++ pyStrOpt item.original_price ++ "~)\n" ++
  "[Tap to open in app](" ++ convert_to_app_link item.url ++ ")"

/-- The `message_title` f-string (script.py line 157); the leading and
trailing four characters reproduce the source file's literal bytes. -/
def message_title (n : Nat) : String :=
  "ðŸ”¥ *Uniqlo Sale Alert!* ðŸ”¥\n\nYou have " ++ toString n ++ " item(s) on sale:\n"

/-- The `final_message` string (script.py line 169). -/
def final_message (sale_items : List ProductDetails) : String :=
  message_title sale_items.length ++ pyJoin "\n" (sale_items.map detail_line)

/-- The `sale_items` list accumulated by `main`'s loop (script.py
lines 144-149): each URL is checked against the page the driver renders
for it, and the on-sale results are appended in order.  The Python guard
`if item_details and item_details['is_on_sale']` reduces to the flag,
because the returned dict always has five keys and is therefore truthy. -/
def main_sale_items (pages : String → Page) : List String → List ProductDetails
  | [] => []
  | url :: rest =>
    if (check_specific_item_price_selenium url (pages url)).is_on_sale then
      check_specific_item_price_selenium url (pages url) :: main_sale_items pages rest
    else
      main_sale_items pages rest

/-- The messages `main` hands to `send_telegram_notification`
(script.py lines 154-172): one `final_message` when `sale_items` is
non-empty, none otherwise. -/
def main_notifications (pages : String → Page) (urls : List String) : List String :=
  let sale_items := main_sale_items pages urls
  if sale_items.isEmpty then [] else [final_message sale_items]

/-- Some step of the extraction raises: navigation, the title wait/read,
the price query, or reading the `.text` of a price element the code
consults (the first two when at least two are returned, the only one when
exactly one is). -/
def consultedTextFails : List (Except Unit String) → Prop
  | e0 :: e1 :: _ => e0 = Except.error () ∨ e1 = Except.error ()
  | [e0] => e0 = Except.error ()
  | [] => False

/-- A failure occurs at some point of the extraction run over this page. -/
def extractionFailed (page : Page) : Prop :=
  page.nav = Except.error () ∨
  page.title = Except.error () ∨
  page.priceElements = Except.error () ∨
  ∃ l, page.priceElements = Except.ok l ∧ consultedTextFails l

/-- The per-item block in the shape the specification describes it: the
bolded product name; a line stating the current price in bold followed by
the original price in strikethrough markup in parentheses; a markup
hyperlink labeled "Tap to open in app" whose target is the deep link
derived from the snapshot's url.  This definition follows the spec's
words; it is proved below to reproduce the source's `detail_line` up to
the separating blank line. -/
def claimBlock (item : ProductDetails) : String :=
  "*" ++ item.name ++ "*\n" ++
  "Now *" ++ item.current_price ++ "* (was ~" ++ pyStrOpt item.original_price ++ "~)\n" ++
  "[Tap to open in app](" ++ convert_to_app_link item.url ++ ")"

/-- A sample on-sale snapshot, used by witnesses. -/
def sampleItem : ProductDetails :=
  { name := "Sample Shirt"
    current_price := "Rp129.000"
    is_on_sale := true
    original_price := some "Rp199.000"
    url := "https://www.uniqlo.com/id/id/products/E479169-000?colorCode=COL09" }

/-- A sample page showing two non-empty price texts, used by witnesses. -/
def samplePage : Page :=
  { nav := .ok ()
    title := .ok "Sample Shirt"
    priceElements := .ok [.ok "Rp199.000", .ok "Rp129.000"] }

theorem takeCount_sound (p : Char → Bool) :
    ∀ (n : Nat) (l a b : List Char), takeCount n p l = some (a, b) →
      l = a ++ b ∧ a.length = n ∧ ∀ c ∈ a, p c := by
  intro n
  induction n with
  | zero =>
    intro l a b h
    simp only [takeCount, Option.some.injEq, Prod.mk.injEq] at h
    obtain ⟨rfl, rfl⟩ := h
    simp
  | succ n ih =>
    intro l a b h
    cases l with
    | nil => simp [takeCount] at h
    | cons c l' =>
      simp only [takeCount] at h
      by_cases hc : p c
      · rw [if_pos hc] at h
        cases htc : takeCount n p l' with
        | none => rw [htc] at h; simp at h
        | some ab =>
          obtain ⟨a', b'⟩ := ab
          rw [htc] at h
          simp only [Option.some.injEq, Prod.mk.injEq] at h
          obtain ⟨rfl, rfl⟩ := h
          obtain ⟨h1, h2, h3⟩ := ih l' a' b' htc
          subst h1
          refine ⟨rfl, by simp [h2], ?_⟩
          intro x hx
          rcases List.mem_cons.mp hx with rfl | hx
          · exact hc
          · exact h3 x hx
      · rw [if_neg hc] at h
        simp at h

theorem takeCount_complete (p : Char → Bool) :
    ∀ (a b : List Char), (∀ c ∈ a, p c) → takeCount a.length p (a ++ b) = some (a, b) := by
  intro a
  induction a with
  | nil => intro b _; simp [takeCount]
  | cons c a' ih =>
    intro b h
    have hc : p c := h c (by simp)
    simp only [List.length_cons, List.cons_append, takeCount, if_pos hc, List.append_eq]
    rw [ih b (fun x hx => h x (by simp [hx]))]

theorem matchProductIdAt_complete (pid r : List Char) (h : idShape pid) :
    matchProductIdAt (pid ++ r) = some pid := by
  obtain ⟨d6, d3, hpid, h6, h3, hd6, hd3⟩ := h
  subst hpid
  have t6 := takeCount_complete Char.isDigit d6 ('-' :: (d3 ++ r)) hd6
  have t3 := takeCount_complete Char.isDigit d3 r hd3
  rw [h6] at t6
  rw [h3] at t3
  simp only [List.cons_append, List.append_assoc, matchProductIdAt, if_pos]
  simp only [t6, t3]

theorem matchProductIdAt_sound (cs m : List Char) (h : matchProductIdAt cs = some m) :
    idShape m ∧ ∃ r, cs = m ++ r := by
  unfold matchProductIdAt at h
  split at h
  · simp at h
  next c rest =>
    by_cases hc : c = 'E'
    · subst hc
      rw [if_pos rfl] at h
      cases h6 : takeCount 6 Char.isDigit rest with
      | none => rw [h6] at h; simp at h
      | some p6 =>
        obtain ⟨d6, r1⟩ := p6
        rw [h6] at h
        obtain ⟨hr1, hl6, hdig6⟩ := takeCount_sound Char.isDigit 6 rest d6 r1 h6
        cases r1 with
        | nil => simp at h
        | cons c1 r2 =>
          by_cases hc1 : c1 = '-'
          · subst hc1
            simp only at h
            cases h3 : takeCount 3 Char.isDigit r2 with
            | none => rw [h3] at h; simp at h
            | some p3 =>
              obtain ⟨d3, r3⟩ := p3
              rw [h3] at h
              simp only [Option.some.injEq] at h
              obtain ⟨hr2, hl3, hdig3⟩ := takeCount_sound Char.isDigit 3 r2 d3 r3 h3
              refine ⟨⟨d6, d3, h.symm, hl6, hl3, hdig6, hdig3⟩, r3, ?_⟩
              subst hr1
              subst hr2
              rw [← h]
              simp
          · exfalso
            cases c1
            simp_all
    · rw [if_neg hc] at h
      simp at h

theorem searchProductId_sound :
    ∀ (cs m : List Char), searchProductId cs = some m →
      idShape m ∧ ∃ pre r, cs = pre ++ (m ++ r) := by
  intro cs
  induction cs with
  | nil => intro m h; simp [searchProductId] at h
  | cons c rest ih =>
    intro m h
    simp only [searchProductId] at h
    cases hm : matchProductIdAt (c :: rest) with
    | some m' =>
      rw [hm] at h
      simp only [Option.some.injEq] at h
      subst h
      obtain ⟨hs, r, hr⟩ := matchProductIdAt_sound _ _ hm
      exact ⟨hs, [], r, by simp [← hr]⟩
    | none =>
      rw [hm] at h
      obtain ⟨hs, pre, r, hr⟩ := ih m h
      exact ⟨hs, c :: pre, r, by simp [hr]⟩

theorem searchProductId_isSome (pre pid post : List Char) (h : idShape pid) :
    ∃ m, searchProductId (pre ++ (pid ++ post)) = some m := by
  induction pre with
  | nil =>
    simp only [List.nil_append]
    have hm := matchProductIdAt_complete pid post h
    obtain ⟨d6, d3, hpid, -, -, -, -⟩ := h
    subst hpid
    rw [List.cons_append] at hm
    refine ⟨'E' :: (d6 ++ '-' :: d3), ?_⟩
    simp only [List.cons_append, searchProductId, List.append_eq]
    rw [hm]
  | cons c pre' ih =>
    simp only [List.cons_append]
    cases hm : matchProductIdAt (c :: (pre' ++ (pid ++ post))) with
    | some m => exact ⟨m, by simp only [searchProductId]; rw [hm]⟩
    | none =>
      obtain ⟨m, hm'⟩ := ih
      exact ⟨m, by simp only [searchProductId]; rw [hm, hm']⟩

theorem searchProductId_skip (t rest : List Char) (h : ∀ c ∈ t, ¬ c = 'E') :
    searchProductId (t ++ rest) = searchProductId rest := by
  induction t with
  | nil => simp
  | cons c t' ih =>
    have hc : ¬ c = 'E' := h c (by simp)
    have hm : matchProductIdAt (c :: (t' ++ rest)) = none := by
      simp [matchProductIdAt, hc]
    simp only [List.cons_append, searchProductId, List.append_eq]
    rw [hm]
    exact ih (fun x hx => h x (by simp [hx]))

theorem sampleUrl_hasIdShape :
    hasIdShape "https://www.uniqlo.com/id/id/products/E479169-000?colorCode=COL09" :=
  ⟨ "https://www.uniqlo.com/id/id/products/".data
  , "E479169-000".data
  , "?colorCode=COL09".data
  , by decide
  , "479169".data, "000".data, by decide, by decide, by decide, by decide, by decide ⟩

/-- Claim C5: an input containing a substring of the identifier shape (one
uppercase letter `E`, six digits, a hyphen, three digits) is mapped to the
fixed-template deep link parameterized only by that identifier; an input
with no such substring is returned unchanged.  `convert_to_app_link` is a
total function, so it never fails its caller. -/
theorem C5_link_transformer (s : String) :
    (hasIdShape s →
      ∃ pre pid post, s.data = pre ++ (pid ++ post) ∧ idShape pid ∧
        convert_to_app_link s = "https://s.uniqlo.com/id/en/product/" ++ String.mk pid) ∧
    (¬ hasIdShape s → convert_to_app_link s = s) := by
  constructor
  · intro h
    obtain ⟨pre, pid, post, hdecomp, hshape⟩ := h
    obtain ⟨m, hm⟩ : ∃ m, searchProductId s.data = some m := by
      rw [hdecomp]
      exact searchProductId_isSome pre pid post hshape
    obtain ⟨hms, pre', r', hdec'⟩ := searchProductId_sound _ _ hm
    exact ⟨pre', m, r', hdec', hms, by simp [convert_to_app_link, hm]⟩
  · intro h
    cases hm : searchProductId s.data with
    | none => simp [convert_to_app_link, hm]
    | some m =>
      exfalso
      obtain ⟨hms, pre, r, hdec⟩ := searchProductId_sound _ _ hm
      exact h ⟨pre, m, r, hdec, hms⟩

theorem C5_link_transformer_witness :
    ∃ pre pid post,
      ("https://www.uniqlo.com/id/id/products/E479169-000?colorCode=COL09" : String).data
          = pre ++ (pid ++ post) ∧ idShape pid ∧
        convert_to_app_link "https://www.uniqlo.com/id/id/products/E479169-000?colorCode=COL09"
          = "https://s.uniqlo.com/id/en/product/" ++ String.mk pid :=
  (C5_link_transformer _).1 sampleUrl_hasIdShape

/-- Claim C9: `convert_to_app_link` is idempotent on every input containing
a valid product identifier. -/
theorem C9_idempotent (u : String) (h : hasIdShape u) :
    convert_to_app_link (convert_to_app_link u) = convert_to_app_link u := by
  obtain ⟨pre, pid, post, hdecomp, hshape⟩ := h
  obtain ⟨m, hm⟩ : ∃ m, searchProductId u.data = some m := by
    rw [hdecomp]
    exact searchProductId_isSome pre pid post hshape
  obtain ⟨hms, -, -, -⟩ := searchProductId_sound _ _ hm
  have h1 : convert_to_app_link u = "https://s.uniqlo.com/id/en/product/" ++ String.mk m := by
    simp [convert_to_app_link, hm]
  have hdata : ("https://s.uniqlo.com/id/en/product/" ++ String.mk m).data
      = "https://s.uniqlo.com/id/en/product/".data ++ m := by
    rw [String.data_append]
  have hnoE : ∀ c ∈ "https://s.uniqlo.com/id/en/product/".data, ¬ c = 'E' := by decide
  have hsearch : searchProductId ("https://s.uniqlo.com/id/en/product/".data ++ m) = some m := by
    rw [searchProductId_skip _ _ hnoE]
    have hmm := matchProductIdAt_complete m [] hms
    rw [List.append_nil] at hmm
    obtain ⟨d6, d3, hpid, -, -, -, -⟩ := hms
    rw [hpid] at hmm ⊢
    simp only [searchProductId]
    rw [hmm]
  rw [h1]
  unfold convert_to_app_link
  rw [hdata, hsearch]

/-- Claim C1 (amended): an extraction yielding exactly two price texts
whose stripped forms are both non-empty produces a snapshot with
`is_on_sale = true`, `original_price` the first element's stripped text
and `current_price` the second element's stripped text. -/
theorem C1_two_prices_sale (url t t0 t1 : String)
    (h0 : strip t0 ≠ "") (h1 : strip t1 ≠ "") :
    check_specific_item_price_selenium url
        { nav := .ok (), title := .ok t, priceElements := .ok [.ok t0, .ok t1] }
      = { name := t
          current_price := strip t1
          is_on_sale := true
          original_price := some (strip t0)
          url := url } := by
  simp [check_specific_item_price_selenium, h0, h1]

theorem C1_two_prices_sale_witness :
    check_specific_item_price_selenium "u"
        { nav := .ok (), title := .ok "T", priceElements := .ok [.ok "Rp199.000", .ok "Rp129.000"] }
      = { name := "T"
          current_price := strip "Rp129.000"
          is_on_sale := true
          original_price := some (strip "Rp199.000")
          url := "u" } :=
  C1_two_prices_sale "u" "T" "Rp199.000" "Rp129.000" (by decide) (by decide)

/-- Claim C1 counterexample: with two elements whose texts are " 120" and
"90" (stripped forms both non-empty), the snapshot's `original_price` is
the stripped "120", not the first element's text " 120". -/
theorem C1_counterexample :
    strip " 120" ≠ "" ∧ strip "90" ≠ "" ∧
      (check_specific_item_price_selenium "u"
          { nav := .ok (), title := .ok "T",
            priceElements := .ok [.ok " 120", .ok "90"] }).original_price
        ≠ some " 120" := by decide

/-- Claim C2 (amended): one price element gives `current_price` equal to
that element's stripped text with `is_on_sale = false` and no
`original_price`; zero elements, or two elements with either stripped
text empty, keep the placeholder price with `is_on_sale = false`. -/
theorem C2_single_and_fallback (url t : String) :
    (∀ t0, check_specific_item_price_selenium url
        { nav := .ok (), title := .ok t, priceElements := .ok [.ok t0] }
      = { name := t
          current_price := strip t0
          is_on_sale := false
          original_price := none
          url := url }) ∧
    (check_specific_item_price_selenium url
        { nav := .ok (), title := .ok t, priceElements := .ok [] }
      = { name := t
          current_price := "Price not found"
          is_on_sale := false
          original_price := none
          url := url }) ∧
    (∀ t0 t1, (strip t0 = "" ∨ strip t1 = "") →
      check_specific_item_price_selenium url
          { nav := .ok (), title := .ok t, priceElements := .ok [.ok t0, .ok t1] }
        = { name := t
            current_price := "Price not found"
            is_on_sale := false
            original_price := none
            url := url }) := by
  refine ⟨fun t0 => ?_, ?_, fun t0 t1 h => ?_⟩
  · simp [check_specific_item_price_selenium, initialDetails]
  · simp [check_specific_item_price_selenium, initialDetails]
  · rcases h with h | h
    · simp [check_specific_item_price_selenium, initialDetails, h]
    · simp [check_specific_item_price_selenium, initialDetails, h]

theorem C2_single_and_fallback_witness :
    check_specific_item_price_selenium "u"
        { nav := .ok (), title := .ok "T", priceElements := .ok [.ok "  ", .ok "90"] }
      = { name := "T"
          current_price := "Price not found"
          is_on_sale := false
          original_price := none
          url := "u" } :=
  (C2_single_and_fallback "u" "T").2.2 "  " "90" (Or.inl (by decide))

/-- Claim C2 counterexample: with exactly one element whose text is
" 75 ", the snapshot's `current_price` is the stripped "75", not the
element's text " 75 ". -/
theorem C2_counterexample :
    (check_specific_item_price_selenium "u"
        { nav := .ok (), title := .ok "T",
          priceElements := .ok [.ok " 75 "] }).current_price
      ≠ " 75 " := by decide

/-- Claim C3 (amended): every failure during extraction is caught, and the
extractor returns the snapshot accumulated so far: placeholder price,
`is_on_sale = false`, `original_price` absent, `url` the input URL; the
name is the placeholder exactly when the failure precedes the title read
(navigation or the title wait raised), and is the already-read title text
whenever navigation and the title read succeeded.  Extraction is a total
function of the page outcome, so it never propagates an exception. -/
theorem C3_failure_degrades (url : String) (page : Page) (h : extractionFailed page) :
    (check_specific_item_price_selenium url page).current_price = "Price not found" ∧
    (check_specific_item_price_selenium url page).is_on_sale = false ∧
    (check_specific_item_price_selenium url page).original_price = none ∧
    (check_specific_item_price_selenium url page).url = url ∧
    ((page.nav = Except.error () ∨ page.title = Except.error ()) →
      (check_specific_item_price_selenium url page).name = "Name not found") ∧
    (∀ t, page.nav = Except.ok () → page.title = Except.ok t →
      (check_specific_item_price_selenium url page).name = t) := by
  obtain ⟨nav, title, prices⟩ := page
  cases nav with
  | error e =>
    cases e
    simp [check_specific_item_price_selenium, initialDetails]
  | ok v =>
    cases v
    cases title with
    | error e =>
      cases e
      simp [check_specific_item_price_selenium, initialDetails]
    | ok t =>
      cases prices with
      | error e =>
        cases e
        simp [check_specific_item_price_selenium, initialDetails]
      | ok l =>
        simp only [extractionFailed] at h
        rcases h with h | h | h | ⟨l', hl', hfail⟩
        · simp at h
        · simp at h
        · simp at h
        · simp only [Except.ok.injEq] at hl'
          subst hl'
          cases l with
          | nil => exact absurd hfail (by simp [consultedTextFails])
          | cons e0 l2 =>
            cases l2 with
            | nil =>
              simp only [consultedTextFails] at hfail
              subst hfail
              simp [check_specific_item_price_selenium, initialDetails]
            | cons e1 rest =>
              simp only [consultedTextFails] at hfail
              rcases hfail with rfl | rfl
              · simp [check_specific_item_price_selenium, initialDetails]
              · cases e0 with
                | error e =>
                  cases e
                  simp [check_specific_item_price_selenium, initialDetails]
                | ok t0 =>
                  simp [check_specific_item_price_selenium, initialDetails]

theorem C3_failure_degrades_witness :
    (check_specific_item_price_selenium "u"
        { nav := .ok (), title := .ok "Sample Shirt",
          priceElements := .error () }).current_price
      = "Price not found" ∧
    (check_specific_item_price_selenium "u"
        { nav := .ok (), title := .ok "Sample Shirt",
          priceElements := .error () }).name
      = "Sample Shirt" :=
  ⟨ (C3_failure_degrades "u" _ (Or.inr (Or.inr (Or.inl rfl)))).1
  , (C3_failure_degrades "u" _ (Or.inr (Or.inr (Or.inl rfl)))).2.2.2.2.2
      "Sample Shirt" rfl rfl ⟩

/-- Claim C3 counterexample: when navigation and the title read succeed
but the price query raises, the returned snapshot carries the real title
text, not the placeholder name the claim promises. -/
theorem C3_counterexample :
    (check_specific_item_price_selenium "u"
        { nav := .ok (), title := .ok "Some Shirt",
          priceElements := .error () }).name
      ≠ "Name not found" := by decide

/-- Claim C6: every extracted snapshot has `original_price` present
exactly when `is_on_sale` is true, and its `url` field is the original
input query URL. -/
theorem C6_invariants (url : String) (page : Page) :
    ((check_specific_item_price_selenium url page).original_price ≠ none ↔
      (check_specific_item_price_selenium url page).is_on_sale = true) ∧
    (check_specific_item_price_selenium url page).url = url := by
  obtain ⟨nav, title, prices⟩ := page
  cases nav with
  | error e => simp [check_specific_item_price_selenium, initialDetails]
  | ok v =>
    cases title with
    | error e => simp [check_specific_item_price_selenium, initialDetails]
    | ok t =>
      cases prices with
      | error e => simp [check_specific_item_price_selenium, initialDetails]
      | ok l =>
        rcases l with _ | ⟨e0, _ | ⟨e1, rest⟩⟩
        · simp [check_specific_item_price_selenium, initialDetails]
        · cases e0 with
          | error e => simp [check_specific_item_price_selenium, initialDetails]
          | ok t0 => simp [check_specific_item_price_selenium, initialDetails]
        · cases e0 with
          | error e => simp [check_specific_item_price_selenium, initialDetails]
          | ok t0 =>
            cases e1 with
            | error e => simp [check_specific_item_price_selenium, initialDetails]
            | ok t1 =>
              by_cases hc : strip t0 ≠ "" ∧ strip t1 ≠ ""
              · simp [check_specific_item_price_selenium, initialDetails, hc]
              · simp [check_specific_item_price_selenium, initialDetails, hc]

theorem C6_invariants_witness :
    (check_specific_item_price_selenium
        "https://www.uniqlo.com/id/id/products/E479169-000?colorCode=COL09"
        samplePage).url
      = "https://www.uniqlo.com/id/id/products/E479169-000?colorCode=COL09" :=
  (C6_invariants "https://www.uniqlo.com/id/id/products/E479169-000?colorCode=COL09"
    samplePage).2

/-- Claim C10: with three or more price elements only the first two are
consulted — the result equals the one for just those two — and when both
stripped texts are non-empty the snapshot is marked on sale with
`original_price` from the first and `current_price` from the second. -/
theorem C10_extra_elements_ignored (url : String) (nav : Except Unit Unit)
    (tr : Except Unit String) (e0 e1 e2 : Except Unit String)
    (rest : List (Except Unit String)) :
    check_specific_item_price_selenium url
        { nav := nav, title := tr, priceElements := .ok (e0 :: e1 :: e2 :: rest) }
      = check_specific_item_price_selenium url
        { nav := nav, title := tr, priceElements := .ok [e0, e1] } ∧
    (∀ t t0 t1, nav = Except.ok () → tr = Except.ok t →
      e0 = Except.ok t0 → e1 = Except.ok t1 →
      strip t0 ≠ "" → strip t1 ≠ "" →
      check_specific_item_price_selenium url
          { nav := nav, title := tr, priceElements := .ok (e0 :: e1 :: e2 :: rest) }
        = { name := t
            current_price := strip t1
            is_on_sale := true
            original_price := some (strip t0)
            url := url }) := by
  constructor
  · cases nav with
    | error e => rfl
    | ok v =>
      cases tr with
      | error e => rfl
      | ok t => rfl
  · rintro t t0 t1 rfl rfl rfl rfl h0 h1
    simp [check_specific_item_price_selenium, h0, h1]

theorem C10_extra_elements_ignored_witness :
    check_specific_item_price_selenium "u"
        { nav := .ok (), title := .ok "T",
          priceElements := .ok [.ok "120", .ok "90", .ok "80"] }
      = { name := "T"
          current_price := strip "90"
          is_on_sale := true
          original_price := some (strip "120")
          url := "u" } :=
  (C10_extra_elements_ignored "u" (.ok ()) (.ok "T")
      (.ok "120") (.ok "90") (.ok "80") []).2
    "T" "120" "90" rfl rfl rfl rfl (by decide) (by decide)

theorem C9_idempotent_witness :
    convert_to_app_link (convert_to_app_link
        "https://www.uniqlo.com/id/id/products/E479169-000?colorCode=COL09")
      = convert_to_app_link
        "https://www.uniqlo.com/id/id/products/E479169-000?colorCode=COL09" :=
  C9_idempotent _ sampleUrl_hasIdShape

/-- Claim C7: with a placeholder bot token or chat target the notifier
issues no HTTP request and prints the configuration diagnostic instead;
it is a total function of its inputs, so it returns without raising. -/
theorem C7_placeholder_credentials (token chat_id message : String)
    (postResult : Except Unit Nat)
    (h : token = "YOUR_BOT_TOKEN_HERE" ∨ chat_id = "YOUR_CHAT_ID_HERE") :
    (send_telegram_notification token chat_id message postResult).httpRequests = [] ∧
    (send_telegram_notification token chat_id message postResult).configError = true := by
  unfold send_telegram_notification
  rw [if_pos h]
  exact ⟨rfl, rfl⟩

theorem C7_placeholder_credentials_witness :
    (send_telegram_notification TELEGRAM_BOT_TOKEN TELEGRAM_CHAT_ID
        "msg" (Except.ok 200)).httpRequests = [] ∧
    (send_telegram_notification TELEGRAM_BOT_TOKEN TELEGRAM_CHAT_ID
        "msg" (Except.ok 200)).configError = true :=
  C7_placeholder_credentials TELEGRAM_BOT_TOKEN TELEGRAM_CHAT_ID "msg"
    (Except.ok 200) (Or.inl rfl)

theorem main_sale_items_eq_filter (pages : String → Page) (urls : List String) :
    main_sale_items pages urls
      = (urls.map fun u => check_specific_item_price_selenium u (pages u)).filter
          (fun d => d.is_on_sale) := by
  induction urls with
  | nil => rfl
  | cons u rest ih =>
    simp only [main_sale_items, List.map_cons, List.filter_cons]
    by_cases hs : (check_specific_item_price_selenium u (pages u)).is_on_sale
    · simp [hs, ih]
    · simp [hs, ih]

/-- Claim C4: the orchestrator's sale report is exactly the sale-flagged
snapshots of the extracted snapshots in original query order; the notifier
is invoked at most once, it is invoked exactly when some snapshot is on
sale, and every message it receives is the one built from that full
report. -/
theorem C4_orchestrator (pages : String → Page) (urls : List String) :
    main_sale_items pages urls
      = (urls.map fun u => check_specific_item_price_selenium u (pages u)).filter
          (fun d => d.is_on_sale) ∧
    (main_notifications pages urls ≠ [] ↔
      ∃ u ∈ urls, (check_specific_item_price_selenium u (pages u)).is_on_sale = true) ∧
    (main_notifications pages urls).length ≤ 1 ∧
    ∀ m ∈ main_notifications pages urls,
      m = final_message
        ((urls.map fun u => check_specific_item_price_selenium u (pages u)).filter
          (fun d => d.is_on_sale)) := by
  have hiff : main_notifications pages urls = [] ↔ main_sale_items pages urls = [] := by
    unfold main_notifications
    by_cases he : (main_sale_items pages urls).isEmpty
    · simp [he, List.isEmpty_iff.mp he]
    · simp only [he]
      simp [List.isEmpty_iff] at he
      simp [he]
  refine ⟨main_sale_items_eq_filter pages urls, ?_, ?_, ?_⟩
  · rw [Ne, hiff, main_sale_items_eq_filter, List.filter_eq_nil_iff]
    push_neg
    simp only [List.mem_map]
    constructor
    · rintro ⟨d, ⟨u, hu, rfl⟩, hd⟩
      exact ⟨u, hu, by simpa using hd⟩
    · rintro ⟨u, hu, hd⟩
      exact ⟨check_specific_item_price_selenium u (pages u), ⟨u, hu, rfl⟩, by simpa using hd⟩
  · unfold main_notifications
    by_cases he : (main_sale_items pages urls).isEmpty
    · simp [he]
    · simp [he]
  · intro m hm
    unfold main_notifications at hm
    by_cases he : (main_sale_items pages urls).isEmpty
    · simp [he] at hm
    · simp only [he, if_neg] at hm
      simp at hm
      rw [hm, main_sale_items_eq_filter]

theorem C4_orchestrator_witness :
    (main_notifications (fun _ => samplePage) PRODUCT_URLS).length ≤ 1 :=
  (C4_orchestrator (fun _ => samplePage) PRODUCT_URLS).2.2.1

theorem detail_line_eq (item : ProductDetails) :
    detail_line item = "\n" ++ claimBlock item := by
  apply String.ext
  simp [detail_line, claimBlock, String.data_append, List.append_assoc]

theorem pyJoin_shift (l : List String) (h : l ≠ []) :
    pyJoin "\n" (l.map fun s => "\n" ++ s) = "\n" ++ pyJoin "\n\n" l := by
  induction l with
  | nil => exact absurd rfl h
  | cons x xs ih =>
    cases xs with
    | nil => rfl
    | cons y ys =>
      have hnn : ("\n" : String) ++ "\n" = "\n\n" := by decide
      have e1 : pyJoin "\n" (("\n" ++ x) :: ("\n" ++ y) :: (ys.map fun s => "\n" ++ s))
          = ("\n" ++ x) ++ "\n" ++ pyJoin "\n" (("\n" ++ y) :: ys.map fun s => "\n" ++ s) := rfl
      have e2 : pyJoin "\n\n" (x :: y :: ys) = x ++ "\n\n" ++ pyJoin "\n\n" (y :: ys) := rfl
      have ih' := ih (by simp)
      rw [List.map_cons] at ih'
      simp only [List.map_cons]
      rw [e1, e2, ih', ← hnn]
      apply String.ext
      simp [String.data_append, List.append_assoc]

/-- Claim C8: the notification message for a non-empty sale report is the
header line stating the item count, followed (after a blank line) by one
block per snapshot in input order — each block as `claimBlock` describes
it — with the blocks separated by blank lines. -/
theorem C8_message_format (sale_items : List ProductDetails) (h : sale_items ≠ []) :
    final_message sale_items
      = "ðŸ”¥ *Uniqlo Sale Alert!* ðŸ”¥\n\nYou have " ++ toString sale_items.length
        ++ " item(s) on sale:\n" ++ "\n"
        ++ pyJoin "\n\n" (sale_items.map claimBlock) := by
  unfold final_message message_title
  have hmap : sale_items.map detail_line
      = (sale_items.map claimBlock).map fun s => "\n" ++ s := by
    rw [List.map_map]
    exact List.map_congr_left (fun item _ => detail_line_eq item)
  rw [hmap, pyJoin_shift _ (by simpa using h)]
  apply String.ext
  simp [String.data_append, List.append_assoc]

theorem C8_message_format_witness :
    final_message [sampleItem]
      = "ðŸ”¥ *Uniqlo Sale Alert!* ðŸ”¥\n\nYou have " ++ toString [sampleItem].length
        ++ " item(s) on sale:\n" ++ "\n"
        ++ pyJoin "\n\n" ([sampleItem].map claimBlock) :=
  C8_message_format [sampleItem] (by simp)

end UniqloSale
